import Mathlib

/-!
Verification development for the google-drive-cli repository.

The Python sources (cloud.py, commands.py, exceptions.py) are shallowly
embedded below.  POSIX path strings are modelled as their lists of
components (`Path('/a/b').name` becomes the last component, `.parent`
becomes `dropLast`, `Path('/')` becomes `[]`); the Google Drive remote
registry is modelled as a list of nodes, and the `RemoteDriveInterface`
caches (`self.files` / `self.trash`) as two further lists inside a state
record.  Interactive prompts are modelled as injected parameters: the
mnemonic-conflict resolver as a `chooser : List Node → Node` and the
yes/no confirmation gate as the string it eventually returned.
-/

namespace GDriveCLI

/-- Model of `Path(p).name` for a path modelled as its list of components:
the last component, or `""` for the root / empty path. -/
def pathTip (p : List String) : String := p.getLast?.getD ""

/-- A remote Google Drive object (`GoogleDriveFile` metadata as used by the
sources): `id`, `title` (display name, not unique), the list of parent ids,
`mimeType`, and the trashed label. -/
structure Node where
  id : String
  title : String
  parents : List String
  mimeType : String
  trashed : Bool
  deriving DecidableEq, Repr

/-- The mimeType marking Google Drive folders. -/
def folderMime : String := "application/vnd.google-apps.folder"

/-- Model of `RemoteDriveInterface` state: the remote registry (the ground truth the
pydrive calls act on) plus the two local caches `self.files` and
`self.trash`.  `rootId` models `drive_root['id']` (the id carried by the
parent reference flagged `isRoot`), and `nextId` feeds fresh ids for
remotely created objects. -/
structure DState where
  registry : List Node
  cfiles : List Node
  ctrash : List Node
  rootId : String
  nextId : Nat
  deriving DecidableEq, Repr

/-- The live listing `ListFile({'q': "trashed=false"})` of a registry. -/
def liveView (l : List Node) : List Node := l.filter (fun n => !n.trashed)

/-- The trash listing `ListFile({'q': "trashed=true"})` of a registry. -/
def trashView (l : List Node) : List Node := l.filter (fun n => n.trashed)

/-- Model of `update_file_manifest` (cloud.py:66): re-fetch both listings from the
remote and store them in the caches. -/
def update_file_manifest (st : DState) : DState :=
  { st with cfiles := liveView st.registry, ctrash := trashView st.registry }

/-- A fresh object id for a remotely created file or folder. -/
def freshId (n : Nat) : String := "gid" ++ toString n

/-- Model of `valid_remote_path` (cloud.py:148), with an explicit fuel argument in
place of Python's unbounded recursion.  Each Python recursion step passes
`to_validate.parent`, which strictly shortens the component list until the
root path is reached, so `path.length + 1` fuel (see the wrapper below)
reproduces the Python behaviour for every node whose display name is
non-empty (at the root path the name test `file['title'] != ''` stops the
Python recursion for such nodes). -/
def validFuel (files : List Node) (rootId : String) :
    Nat → Node → List String → Bool
  | 0, _, _ => false
  | fuel + 1, f, path =>
    -- "If the title of the file is not the same as the last part of the
    -- given path then it is trivially false"
    if f.title ≠ pathTip path then false
    -- "If the file name matches the file path and the root node is a
    -- parent then it is trivially true"
    else if f.parents.contains rootId then true
    -- otherwise try to validate every file whose id is one of our parent
    -- ids against the path with its last component removed
    else files.any fun c =>
      f.parents.contains c.id && validFuel files rootId fuel c path.dropLast

/-- Model of `valid_remote_path` (cloud.py:148) against an explicit search list
(`self.files.values()`, extended with the trash when `search_trash`). -/
def valid_remote_path (files : List Node) (rootId : String)
    (f : Node) (path : List String) : Bool :=
  validFuel files rootId (path.length + 1) f path

/-- The `matching_files` list built by the loop in `get_remote_file`
(cloud.py:207-210): candidates whose title equals the path's last
component and which validate against the full path. -/
def matching_files (cands searchList : List Node) (rootId : String)
    (path : List String) : List Node :=
  cands.filter fun f =>
    f.title == pathTip path && valid_remote_path searchList rootId f path

/-- Outcome of `get_remote_file` (cloud.py:184) before the interactive
conflict resolution: the root sentinel, a unique match, a delegated
multi-match, or `None`. -/
inductive ResolveResult where
  | root : ResolveResult
  | found (n : Node) : ResolveResult
  | ambiguous (ns : List Node) : ResolveResult
  | notFound : ResolveResult
  deriving DecidableEq, Repr

/-- The candidate list `files_to_check` of `get_remote_file`
(cloud.py:200): the trash cache when `trashed`, else the live cache. -/
def resolutionCands (st : DState) (trashed : Bool) : List Node :=
  if trashed then st.ctrash else st.cfiles

/-- The search list `valid_remote_path` receives from `get_remote_file`:
live plus trash when `search_trash=trashed` is set, else live only
(cloud.py:163). -/
def resolutionSearch (st : DState) (trashed : Bool) : List Node :=
  if trashed then st.cfiles ++ st.ctrash else st.cfiles

/-- Model of `get_remote_file` (cloud.py:184).  `trashed` selects the candidate set
(`self.trash` instead of `self.files`) and widens the validation search
list to live plus trash, exactly as `search_trash=trashed` does. -/
def get_remote_file (st : DState) (path : List String) (trashed : Bool) :
    ResolveResult :=
  -- "Make sure that the file path is not the root before continuing"
  if pathTip path = "" then .root
  else
    match matching_files (resolutionCands st trashed)
        (resolutionSearch st trashed) st.rootId path with
    | [] => .notFound
    | [f] => .found f
    | f₁ :: f₂ :: rest => .ambiguous (f₁ :: f₂ :: rest)

/-- A resolved reference: either the virtual root parent reference returned
by `drive_root`, or an actual node. -/
inductive Resolved where
  | rootRef : Resolved
  | node (n : Node) : Resolved
  deriving DecidableEq, Repr

/-- The id of a resolved reference (`resolved['id']`). -/
def Resolved.idIn (r : Resolved) (st : DState) : String :=
  match r with
  | .rootRef => st.rootId
  | .node n => n.id

/-- Model of `resolved.get('mimeType', 'application/vnd.google-apps.folder')`: the
root parent reference carries no mimeType, so the folder default applies. -/
def Resolved.mimeOf : Resolved → String
  | .rootRef => folderMime
  | .node n => n.mimeType

/-- Collapse a `ResolveResult` to the `GoogleDriveFile`-or-`None` value the
Python caller sees, delegating a multi-match to the interactive
`resolve_mnemonic_conflict` modelled by `chooser`. -/
def collapse (chooser : List Node → Node) : ResolveResult → Option Resolved
  | .root => some .rootRef
  | .found n => some (.node n)
  | .ambiguous ns => some (.node (chooser ns))
  | .notFound => none

/-- Model of `get_remote_file` followed by the interactive conflict resolution. -/
def resolveWith (st : DState) (chooser : List Node → Node)
    (path : List String) (trashed : Bool) : Option Resolved :=
  collapse chooser (get_remote_file st path trashed)

/-! ## Local filesystem model -/

/-- A local filesystem entry: a plain file or a directory with an ordered
child list (the order `iterdir` yields). -/
inductive FsTree where
  | file : FsTree
  | dir (children : List (String × FsTree)) : FsTree

/-- Walk an absolute local path (component list) down a filesystem tree. -/
def lookupFs : List String → FsTree → Option FsTree
  | [], t => some t
  | _ :: _, .file => none
  | name :: rest, .dir cs =>
    match cs.find? (fun c => c.1 == name) with
    | some c => lookupFs rest c.2
    | none => none

/-- Model of `Path(p).exists()` on the modelled local filesystem. -/
def existsAt (fs : FsTree) (p : List String) : Bool :=
  (lookupFs p fs).isSome

/-- Model of `Path(p).is_file()` on the modelled local filesystem. -/
def isFileAt (fs : FsTree) (p : List String) : Bool :=
  match lookupFs p fs with
  | some .file => true
  | _ => false

/-- Model of `Path(p).is_dir()` on the modelled local filesystem. -/
def isDirAt (fs : FsTree) (p : List String) : Bool :=
  match lookupFs p fs with
  | some (.dir _) => true
  | _ => false

/-- Model of `Path(p).iterdir()`: the ordered children of a local directory. -/
def childrenAt (fs : FsTree) (p : List String) : List (String × FsTree) :=
  match lookupFs p fs with
  | some (.dir cs) => cs
  | _ => []

/-- Whether a single filesystem entry is a directory (`file.is_dir()` on a
child yielded by `iterdir`). -/
def FsTree.isDirEntry : FsTree → Bool
  | .dir _ => true
  | .file => false

/-- Whether a single filesystem entry is a plain file (`file.is_file()`). -/
def FsTree.isFileEntry : FsTree → Bool
  | .file => true
  | .dir _ => false

/-! ## Remote folder / file creation (cloud.py) -/

/-- The parents option for a freshly created object: absent when the
resolved parent is `None`, else `[{'id': parent['id']}]`. -/
def parentsOf : Option Node → List String
  | none => []
  | some p => [p.id]

/-- Model of `create_file_path` (cloud.py:279): create the folder chain for
`directory_path`, re-using folders that already resolve, and refresh the
manifest only at the non-recursed top level.  Returns the updated state and
the folder for the full path (`None` when the path is the root, mirroring
the implicit `return None` of the Python function). -/
def create_file_path (chooser : List Node → Node) :
    DState → List String → Bool → DState × Option Node
  | st, path, recursed =>
    if htip : pathTip path = "" then (st, none)
    else
      -- "Assuming the path is valid then create the full path to place
      -- this file"
      let res := create_file_path chooser st path.dropLast true
      let st1 := res.1
      -- "Check if a folder already exists before creating another one"
      match resolveWith st1 chooser path false with
      | none =>
        let folder : Node :=
          { id := freshId st1.nextId, title := pathTip path,
            parents := parentsOf res.2, mimeType := folderMime,
            trashed := false }
        let st2 := { st1 with registry := st1.registry ++ [folder],
                              nextId := st1.nextId + 1 }
        -- "Only update the file manifest at the very end"
        (if recursed then st2 else update_file_manifest st2, some folder)
      | some (.node dup) =>
        (if recursed then st1 else update_file_manifest st1, some dup)
      | some .rootRef =>
        -- unreachable: `get_remote_file` yields the root sentinel only
        -- when the final path component is empty, excluded by the guard
        (st1, none)
termination_by _ path _ => path.length
decreasing_by
  simp only [List.length_dropLast]
  have : path ≠ [] := by
    intro he; exact htip (by simp [he, pathTip])
  have : 0 < path.length := List.length_pos.mpr this
  omega

/-- An upload event: the local source path whose bytes were sent, and the
id of the remote node that received them. -/
abbrev UploadEv := List String × String

/-- Model of `create_file` (cloud.py:242): upload a single local file to a remote
path.  Note the guard on cloud.py:255 tests `Path(remote_path).is_file()`
— the *remote* path string checked against the *local* filesystem — and
returns silently when it fails.  Returns `none` where the Python code
would raise `AttributeError` (content upload attempted on the virtual root
reference). -/
def create_file (fs : FsTree) (chooser : List Node → Node) (st : DState)
    (local_path remote_path : List String) : Option (DState × List UploadEv) :=
  if ¬ isFileAt fs remote_path then some (st, [])
  else
    -- "If the file is not already present in the drive then create a new
    -- file and if it is then update it"
    match resolveWith st chooser remote_path false with
    | none =>
      let res := create_file_path chooser st remote_path.dropLast false
      let file : Node :=
        { id := freshId res.1.nextId, title := pathTip remote_path,
          parents := parentsOf res.2, mimeType := "", trashed := false }
      let st2 := { res.1 with registry := res.1.registry ++ [file],
                              nextId := res.1.nextId + 1 }
      -- SetContentFile + Upload, then update_file_manifest
      some (update_file_manifest st2, [(local_path, file.id)])
    | some (.node dup) =>
      -- the existing node's content is overwritten in place
      some (update_file_manifest st, [(local_path, dup.id)])
    | some .rootRef => none

/-! ## Trash / delete / restore (cloud.py) -/

/-- The typed errors surfaced by the modelled operations.  `typeError`
stands for the `AttributeError`/`KeyError` the Python code would hit when
it tries to operate on the virtual root parent reference as if it were a
full `GoogleDriveFile`. -/
inductive DriveErr where
  | pathNotFound : DriveErr
  | typeError : DriveErr
  deriving DecidableEq, Repr

/-- Model of `node.Trash()` / `node.UnTrash()`: flip the trashed label of the node
with the given id in the remote registry. -/
def setTrashed (st : DState) (nid : String) (b : Bool) : DState :=
  { st with registry :=
      st.registry.map fun n => if n.id = nid then { n with trashed := b } else n }

/-- Model of `node.Delete()`: remove the node with the given id from the remote
registry irrecoverably. -/
def removeNode (st : DState) (nid : String) : DState :=
  { st with registry := st.registry.filter fun n => n.id ≠ nid }

/-- Model of `delete_remote_file` (cloud.py:353): trash the resolved node, or delete
it permanently when `delete_forever` is set; on success conclude with a
manifest refresh. -/
def delete_remote_file (st : DState) (chooser : List Node → Node)
    (remote_item : List String) (delete_forever : Bool) :
    Except DriveErr DState :=
  match resolveWith st chooser remote_item false with
  | some (.node n) =>
    let st1 := if ¬ delete_forever then setTrashed st n.id true
               else removeNode st n.id
    -- "Update our local cache to reflect this change"
    .ok (update_file_manifest st1)
  | some .rootRef => .error .typeError
  | none => .error .pathNotFound

/-- Model of `recover_remote_file` (cloud.py:377): resolve with `trashed=True`
(candidates drawn from the trash cache only), un-trash the resolved node,
and conclude with a manifest refresh; raise `RemotePathNotFound` when
nothing resolves. -/
def recover_remote_file (st : DState) (chooser : List Node → Node)
    (remote_item : List String) : Except DriveErr DState :=
  match resolveWith st chooser remote_item true with
  | some (.node n) =>
    .ok (update_file_manifest (setTrashed st n.id false))
  | some .rootRef => .error .typeError
  | none => .error .pathNotFound

/-- Model of `update_file_manifest` (cloud.py:66) with the two remote listing calls
made explicit and fallible.  Python executes
`self.files = {...ListFile(live)...}` and then
`self.trash = {...ListFile(trash)...}` as two separate assignments; an
exception in a listing call aborts between them, so the function returns
the cache state left behind together with the propagated error, if any. -/
def update_file_manifest_r (st : DState)
    (liveRes trashRes : Except Unit (List Node)) : DState × Option Unit :=
  match liveRes with
  | .error e => (st, some e)
  | .ok fs =>
    match trashRes with
    | .error e => ({ st with cfiles := fs }, some e)
    | .ok ts => ({ st with cfiles := fs, ctrash := ts }, none)

/-! ## commands.py: prompts, paths and arguments -/

/-- Python's substring test `a in b` on strings. -/
def pythonIn (a b : String) : Bool := decide (a.toList <:+: b.toList)

/-- Model of `ansi_yes_no_prompt` (commands.py:17) run against a finite script of
user responses: keep prompting until a response `decision` satisfies
`decision in 'ync'`, and return it; `none` when the script runs out (the
Python loop would keep prompting). -/
def ansi_yes_no_prompt : List String → Option String
  | [] => none
  | d :: rest => if pythonIn d "ync" then some d else ansi_yes_no_prompt rest

/-- The interpretation every confirmation gate applies to the prompt's
answer: `in 'nc'` means decline/cancel, aborting the operation. -/
def gateDeclines (decision : String) : Bool := pythonIn decision "nc"

/-- A user-supplied path string: whether it `startswith('/')` and its
component list. -/
structure PPath where
  abs : Bool
  comps : List String
  deriving DecidableEq, Repr

/-- Model of `Path(p) if p.startswith('/') else base / p`: resolve a user path
against a base (the remote session cursor, or `Path.home()`). -/
def resolvePPath (base : List String) (p : PPath) : List String :=
  if p.abs then p.comps else base ++ p.comps

/-- Python `a or b` over optional argument values. -/
def pyOr (a b : Option PPath) : Option PPath :=
  match a with
  | some x => some x
  | none => b

/-! ## commands.py: push (upload_local_files) -/

/-- The argument dictionary consumed by `upload_local_files`.  `localStray`
models the key `'<LOCAL'` — note the missing closing `>` — that the
recursive call writes at commands.py:192; no code ever reads that key
back, so the genuine `'<LOCAL>'` entry (`localPos`) survives unchanged
into every recursive call. -/
structure PushArgs where
  localPos : Option PPath
  localOpt : Option PPath
  remotePos : Option PPath
  remoteOpt : Option PPath
  localStray : Option PPath
  folder : Bool
  recursive : Bool
  deriving DecidableEq, Repr

/-- Outcome of a push: completed with a final drive state and the list of
upload events performed, aborted by a raised `LocalPathNotFound`, stopped
by fuel exhaustion (the Python call would still be recursing), or a Python
runtime crash. -/
inductive PushRes where
  | fuelOut : PushRes
  | localNotFound : PushRes
  | crashed : PushRes
  | done (st : DState) (ups : List UploadEv) : PushRes
  deriving DecidableEq, Repr

/-- Model of `upload_local_files` (commands.py:148).  `gate` is the answer
`ansi_yes_no_prompt` would return at the create-on-demand confirmation;
`fuel` bounds the recursion depth, with `.fuelOut` marking that the Python
code would still be running.  The child loop mirrors the `iterdir` loop:
a directory child recurses (only when `--recursive` is set) with the
argument dictionary copied, the stray `'<LOCAL'` key and the `'<REMOTE>'`
key updated; a file child goes through `create_file`; any other directory
child is skipped. -/
def upload_local_files (fs : FsTree) (chooser : List Node → Node)
    (gate : String) (cwd home : List String) :
    Nat → DState → PushArgs → Bool → PushRes
  | 0, _, _, _ => .fuelOut
  | fuel + 1, st, args, recursed =>
    match pyOr args.remotePos args.remoteOpt,
          pyOr args.localPos args.localOpt with
    | some remote, some loc =>
      let remote_path := resolvePPath cwd remote
      let local_path := resolvePPath home loc
      -- "Make sure the local path exists before attempting to upload it"
      if ¬ existsAt fs local_path then .localNotFound
      -- "Then make sure the remote path exists or the user is okay with
      -- creating it"
      else if ((resolveWith st chooser remote_path false).isNone ∧ ¬ recursed)
              ∧ gateDeclines gate then .done st []
      else if args.folder ∧ isDirAt fs local_path then
        (childrenAt fs local_path).foldl
          (fun acc child =>
            match acc with
            | .done st' ups =>
              let absLocal := local_path ++ [child.1]
              let absRemote := remote_path ++ [child.1]
              if child.2.isDirEntry ∧ args.recursive then
                match upload_local_files fs chooser gate cwd home fuel st'
                    { args with localStray := some ⟨true, absLocal⟩,
                                remotePos := some ⟨true, absRemote⟩ }
                    true with
                | .done st'' ups' => .done st'' (ups ++ ups')
                | r => r
              else if child.2.isFileEntry then
                match create_file fs chooser st' absLocal absRemote with
                | some (st'', ups') => .done st'' (ups ++ ups')
                | none => .crashed
              else .done st' ups
            | r => r)
          (.done st [])
      else if isFileAt fs local_path then
        match create_file fs chooser st local_path remote_path with
        | some (st', ups) => .done st' ups
        | none => .crashed
      -- "Otherwise the user is trying to upload a folder without the
      -- proper flag so let them know" (message only, no action)
      else .done st []
    | _, _ => .crashed

/-! ## commands.py: move, rm, restore -/

/-- Outcome of `move_remote_file`: the successful reparent+rename with the
updated node, the user declining the create-on-demand gate, one of the two
raised errors, or a Python runtime crash. -/
inductive MoveRes where
  | moved (st : DState) (updated : Node) : MoveRes
  | aborted (st : DState) : MoveRes
  | pathNotFound (st : DState) : MoveRes
  | pathIsFile (st : DState) : MoveRes
  | crashed : MoveRes
  deriving DecidableEq, Repr

/-- The single-component lookup path `get_remote_file` receives when the
caller passes `some_path.parent.name` (a bare name string): empty for the
root, else just the name. -/
def nameKeyPath (p : List String) : List String :=
  if pathTip p = "" then [] else [pathTip p]

/-- Model of `remote_file.Upload()` on an existing node after its `title` and
`parents` entries were reassigned: the remote registry is updated, and —
because the cached dictionaries alias the very same object — so are the
cache entries with that id.  No manifest refresh follows (the source does
not call one here). -/
def uploadNode (st : DState) (upd : Node) : DState :=
  let swap := fun (n : Node) => if n.id = upd.id then upd else n
  { st with registry := st.registry.map swap,
            cfiles := st.cfiles.map swap,
            ctrash := st.ctrash.map swap }

/-- The commit half of `move_remote_file` (commands.py:477-487): reject a
non-folder destination parent, otherwise reassign the moved file's
`title` and `parents` entries and upload.  `st` carries the root id the
parent references resolve to, `st1` the (possibly folder-creation
updated) state the upload acts on. -/
def moveCommit (st : DState) (remote_dest : List String)
    (remote_file : Node) (sp : Resolved) (st1 : DState) (dp : Resolved) :
    MoveRes :=
  -- "Make sure the mimetype of the file is correct as we cannot parent
  -- to a non folder and update the metadata"
  if dp.mimeOf = folderMime then
    let upd : Node :=
      { remote_file with
          title := pathTip remote_dest,
          parents := remote_file.parents.filter
                       (fun x => x ≠ sp.idIn st) ++ [dp.idIn st] }
    MoveRes.moved (uploadNode st1 upd) upd
  else MoveRes.pathIsFile st1

/-- Model of `move_remote_file` (commands.py:443).  Both the source's current
parent and the destination's parent are resolved from
`path.parent.name` — only the terminal component of the parent path, used
as a lookup key (commands.py:463-464).  On success the node's parents
become the old list with the source parent's id filtered out and the
destination parent's id appended, and its title becomes the destination's
last component. -/
def move_remote_file (st : DState) (chooser : List Node → Node)
    (gate : String) (cwd : List String) (source dest : PPath) : MoveRes :=
  match resolveWith st chooser (resolvePPath cwd source) false,
        resolveWith st chooser
          (nameKeyPath (resolvePPath cwd source).dropLast) false with
  | some (.node remote_file), some sp =>
    match resolveWith st chooser
        (nameKeyPath (resolvePPath cwd dest).dropLast) false with
    | some dp => moveCommit st (resolvePPath cwd dest) remote_file sp st dp
    | none =>
      -- destination parent missing: confirmation gate, then lazy creation
      if gateDeclines gate then .aborted st
      else
        match create_file_path chooser st (resolvePPath cwd dest).dropLast false with
        | (st1, some dp) =>
          moveCommit st (resolvePPath cwd dest) remote_file sp st1 (.node dp)
        | (_, none) => .crashed
  | some .rootRef, _ => .crashed
  | _, _ => .pathNotFound st

/-- The `rm` arguments: the remote path and the `-d, --delete` flag. -/
structure RmArgs where
  remote : PPath
  delete : Bool
  deriving DecidableEq, Repr

/-- Model of `remove_file` (commands.py:552): resolve the remote path against the
session cursor and call `delete_remote_file`.  The call at commands.py:571
passes no second argument, so `delete_forever` keeps its Python default
`False` whatever `args['--delete']` holds. -/
def remove_file (st : DState) (chooser : List Node → Node)
    (cwd : List String) (args : RmArgs) : Except DriveErr DState :=
  delete_remote_file st chooser (resolvePPath cwd args.remote) false

/-- Model of `recover_file` (commands.py:574): resolve the remote path against the
session cursor and call `recover_remote_file`. -/
def recover_file (st : DState) (chooser : List Node → Node)
    (cwd : List String) (remote : PPath) : Except DriveErr DState :=
  recover_remote_file st chooser (resolvePPath cwd remote)

/-! ## Claim-side definitions and concrete scenarios -/

/-- Path validation as claim C1 words it: the name must match the path's
last component, and either the root sentinel is among the parents *and
the path has no remaining prefix beyond the last component*, or some
parent node validates recursively against the shortened path.  (Same fuel
convention as `validFuel`.) -/
def claimedValidFuel (files : List Node) (rootId : String) :
    Nat → Node → List String → Bool
  | 0, _, _ => false
  | fuel + 1, f, path =>
    f.title == pathTip path &&
      ((f.parents.contains rootId && path.dropLast.isEmpty) ||
        files.any fun c =>
          f.parents.contains c.id &&
            claimedValidFuel files rootId fuel c path.dropLast)

/-- Wrapper for `claimedValidFuel` with sufficient fuel. -/
def claimed_valid (files : List Node) (rootId : String)
    (f : Node) (path : List String) : Bool :=
  claimedValidFuel files rootId (path.length + 1) f path

/-- The deterministic stand-in for the interactive mnemonic-conflict
prompt used in the concrete scenarios: pick the first candidate. -/
def headChooser (ns : List Node) : Node := ns.headD ⟨"", "", [], "", false⟩

/-- The node for a multi-match: the single match itself, otherwise the
interactive resolver's pick — exactly the dispatch
`matching_files.pop() if num_matches == 1 else resolve_mnemonic_conflict`. -/
def chosenOf (chooser : List Node → Node) (ms : List Node) : Node :=
  match ms with
  | [n] => n
  | ns => chooser ns

/-- The candidate list `get_remote_file` filters when `trashed=True`:
trash-cache entries validated against live plus trash. -/
def trashCandidates (st : DState) (path : List String) : List Node :=
  matching_files st.ctrash (st.cfiles ++ st.ctrash) st.rootId path

/-! Concrete scenarios used by counterexamples and witnesses. -/

/-- A node named `name` lying directly under root. -/
def cNameNode : Node := ⟨"n", "name", ["root"], "", false⟩

/-- Scenario for C2: a `docs` folder under root holding two distinct nodes
both named `report.txt`. -/
def cDocs : Node := ⟨"D", "docs", ["root"], folderMime, false⟩

/-- First `report.txt` under `docs`. -/
def cRep1 : Node := ⟨"R1", "report.txt", ["D"], "", false⟩

/-- Second `report.txt` under `docs`. -/
def cRep2 : Node := ⟨"R2", "report.txt", ["D"], "", false⟩

/-- Drive state for the C2 scenario. -/
def cSt2 : DState := ⟨[cDocs, cRep1, cRep2], [cDocs, cRep1, cRep2], [], "root", 0⟩

/-- Local tree for the C3 scenario: `foo/` holding `a.txt` and `bar/b.txt`. -/
def cFs3 : FsTree :=
  .dir [("foo", .dir [("a.txt", .file), ("bar", .dir [("b.txt", .file)])])]

/-- Model of `push --folder --recursive /foo /dest` argument dictionary. -/
def cArgs3 : PushArgs :=
  ⟨some ⟨true, ["foo"]⟩, none, some ⟨true, ["dest"]⟩, none, none, true, true⟩

/-- An empty drive state. -/
def cSt0 : DState := ⟨[], [], [], "root", 0⟩

/-- C4 scenario: folders `p`, `r`, `q` under root; node `f` with the two
parents `p` and `r`. -/
def cP : Node := ⟨"P", "p", ["root"], folderMime, false⟩

/-- Folder `r` under root (the unrelated retained parent). -/
def cR : Node := ⟨"R", "r", ["root"], folderMime, false⟩

/-- Folder `q` under root (the move destination's parent). -/
def cQ : Node := ⟨"Q", "q", ["root"], folderMime, false⟩

/-- The moved node `f`, with parents `p` and `r`. -/
def cN : Node := ⟨"N", "f", ["P", "R"], "", false⟩

/-- Drive state for the C4 scenario. -/
def cSt4 : DState := ⟨[cP, cR, cQ, cN], [cP, cR, cQ, cN], [], "root", 0⟩

/-- C5 scenario: `/a/docs/f.txt`, with `docs` *not* directly under root. -/
def cA5 : Node := ⟨"A", "a", ["root"], folderMime, false⟩

/-- Folder `docs` under `/a` (not under root). -/
def cD5 : Node := ⟨"D", "docs", ["A"], folderMime, false⟩

/-- File `f.txt` under `/a/docs`. -/
def cF5 : Node := ⟨"F", "f.txt", ["D"], "", false⟩

/-- Drive state for the C5 scenario. -/
def cSt5 : DState := ⟨[cA5, cD5, cF5], [cA5, cD5, cF5], [], "root", 0⟩

/-- Local tree for the C6 scenario: a single local file `/a.txt`. -/
def cFs6 : FsTree := .dir [("a.txt", .file)]

/-- Remote folder `dest` under root, for the C6 overwrite sub-case. -/
def cDest6 : Node := ⟨"DD", "dest", ["root"], folderMime, false⟩

/-- An existing remote `a.txt` under `/dest`, for the C6 overwrite sub-case. -/
def cDup6 : Node := ⟨"AD", "a.txt", ["DD"], "", false⟩

/-- Drive state for the C6 overwrite sub-case: `/dest/a.txt` resolves. -/
def cSt6 : DState := ⟨[cDest6, cDup6], [cDest6, cDup6], [], "root", 0⟩

/-- C7 scenario: one live file `f` under root. -/
def cF7 : Node := ⟨"F", "f", ["root"], "", false⟩

/-- Drive state for the C7 scenario. -/
def cSt7 : DState := ⟨[cF7], [cF7], [], "root", 0⟩

/-- C8/C9 scenario: one trashed node `f` under root. -/
def cG8 : Node := ⟨"G", "f", ["root"], "", true⟩

/-- Drive state for the C8 and C9 scenarios (caches in sync). -/
def cSt8 : DState := ⟨[cG8], [], [cG8], "root", 0⟩

/-! ## Helper lemmas -/

/-- Helper: `headChooser` always picks one of the candidates it is offered. -/
theorem headChooser_mem (ns : List Node) (h : ns ≠ []) : headChooser ns ∈ ns := by
  cases ns with
  | nil => exact absurd rfl h
  | cons a l => simp [headChooser]

/-- One unfolding step of `validFuel` at positive fuel. -/
theorem validFuel_succ (files : List Node) (rootId : String) (fuel : Nat)
    (f : Node) (path : List String) :
    validFuel files rootId (fuel + 1) f path =
      if f.title ≠ pathTip path then false
      else if f.parents.contains rootId then true
      else files.any fun c =>
        f.parents.contains c.id && validFuel files rootId fuel c path.dropLast := rfl

/-! ## C1 -/

/-- C1 counterexample: `cNameNode` lies directly under root, and the code
validates it against `/a/b/name` — a path that still has the non-empty
intermediate prefix `a/b` — because cloud.py:172 tests only root
parenthood, never the remaining prefix.  The claim's reading
(`claimed_valid`) rejects the same input, so the claimed equivalence is
false at this input. -/
theorem c1_counterexample :
    valid_remote_path [cNameNode] "root" cNameNode ["a", "b", "name"] = true ∧
    claimed_valid [cNameNode] "root" cNameNode ["a", "b", "name"] = false := by
  decide

/-- C1 (amended): path validation returns true iff the node's name equals
the path's last component and either the root sentinel is among the
node's parents — regardless of any remaining path prefix — or some parent
node in the search list validates recursively against the path with its
last component removed. -/
theorem c1_validate_characterisation (files : List Node) (rootId : String)
    (f : Node) (path : List String) (hpath : path ≠ []) :
    valid_remote_path files rootId f path = true ↔
      (f.title = pathTip path ∧
        (rootId ∈ f.parents ∨
          ∃ c ∈ files, c.id ∈ f.parents ∧
            valid_remote_path files rootId c path.dropLast = true)) := by
  have hlen : path.dropLast.length + 1 = path.length := by
    rw [List.length_dropLast]
    have := List.length_pos.mpr hpath
    omega
  have hinner : ∀ c : Node,
      validFuel files rootId path.length c path.dropLast =
        valid_remote_path files rootId c path.dropLast := by
    intro c
    rw [valid_remote_path, hlen]
  rw [show valid_remote_path files rootId f path
        = validFuel files rootId (path.length + 1) f path from rfl,
      validFuel_succ]
  by_cases ht : f.title = pathTip path
  · rw [if_neg (by simpa using ht)]
    by_cases hr : f.parents.contains rootId
    · rw [if_pos hr]
      simp [ht, List.elem_iff.mp hr]
    · rw [if_neg hr, List.any_eq_true]
      simp only [Bool.and_eq_true, hinner]
      constructor
      · rintro ⟨c, hc, hcid, hv⟩
        exact ⟨ht, Or.inr ⟨c, hc, List.elem_iff.mp hcid, hv⟩⟩
      · rintro ⟨-, hroot | ⟨c, hc, hcid, hv⟩⟩
        · exact absurd (List.elem_iff.mpr hroot) hr
        · exact ⟨c, hc, List.elem_iff.mpr hcid, hv⟩
  · rw [if_pos (by simpa using ht)]
    simp [ht]

/-- C1 witness: the characterisation instantiated at the counterexample
scenario's node and path. -/
theorem c1_witness :
    valid_remote_path [cNameNode] "root" cNameNode ["a", "b", "name"] = true ↔
      (cNameNode.title = pathTip ["a", "b", "name"] ∧
        (("root" : String) ∈ cNameNode.parents ∨
          ∃ c ∈ [cNameNode], c.id ∈ cNameNode.parents ∧
            valid_remote_path [cNameNode] "root" c
              (["a", "b", "name"].dropLast) = true)) :=
  c1_validate_characterisation [cNameNode] "root" cNameNode ["a", "b", "name"]
    (by decide)

/-! ## C2 -/

/-- C2: `get_remote_file` returns the root sentinel for a path with no
name component; otherwise it is `notFound` exactly when no candidate both
matches the last component and validates, returns the node itself on a
unique match, and hands *all* candidates to the ambiguity resolver when
two distinct ones exist — it never silently picks one. -/
theorem c2_resolution_dispatch (st : DState) (path : List String) (trashed : Bool) :
    (pathTip path = "" → get_remote_file st path trashed = .root) ∧
    (pathTip path ≠ "" →
      ((get_remote_file st path trashed = .notFound ↔
          matching_files (resolutionCands st trashed)
            (resolutionSearch st trashed) st.rootId path = []) ∧
        (∀ n, matching_files (resolutionCands st trashed)
            (resolutionSearch st trashed) st.rootId path = [n] →
          get_remote_file st path trashed = .found n) ∧
        (∀ n₁ n₂,
          n₁ ∈ matching_files (resolutionCands st trashed)
            (resolutionSearch st trashed) st.rootId path →
          n₂ ∈ matching_files (resolutionCands st trashed)
            (resolutionSearch st trashed) st.rootId path →
          n₁ ≠ n₂ →
          get_remote_file st path trashed =
            .ambiguous (matching_files (resolutionCands st trashed)
              (resolutionSearch st trashed) st.rootId path)))) := by
  constructor
  · intro h
    unfold get_remote_file
    rw [if_pos h]
  · intro h
    have hg : get_remote_file st path trashed =
        match matching_files (resolutionCands st trashed)
            (resolutionSearch st trashed) st.rootId path with
        | [] => ResolveResult.notFound
        | [f] => ResolveResult.found f
        | f₁ :: f₂ :: rest => ResolveResult.ambiguous (f₁ :: f₂ :: rest) := by
      unfold get_remote_file
      rw [if_neg h]
    rcases hms : matching_files (resolutionCands st trashed)
        (resolutionSearch st trashed) st.rootId path with _ | ⟨a, _ | ⟨b, l⟩⟩
    · refine ⟨by simp [hg, hms], ?_, ?_⟩
      · intro n hn
        simp at hn
      · intro n₁ n₂ h₁ _ _
        simp at h₁
    · refine ⟨by simp [hg, hms], ?_, ?_⟩
      · intro n hn
        obtain rfl : a = n := by simpa using hn
        simp [hg, hms]
      · intro n₁ n₂ h₁ h₂ hne
        simp at h₁ h₂
        exact absurd (h₁.trans h₂.symm) hne
    · refine ⟨by simp [hg, hms], ?_, ?_⟩
      · intro n hn
        simp at hn
      · intro n₁ n₂ _ _ _
        simp [hg, hms]

/-- C2 witness: the two same-named `report.txt` nodes under `/docs` are
both delegated to the ambiguity resolver. -/
theorem c2_witness :
    get_remote_file cSt2 ["docs", "report.txt"] false =
      .ambiguous [cRep1, cRep2] := by
  have h := ((c2_resolution_dispatch cSt2 ["docs", "report.txt"] false).2
      (by decide)).2.2 cRep1 cRep2 (by decide) (by decide) (by decide)
  rw [h]
  decide

/-! ## C3 -/

/-- C3 auxiliary: any recursive continuation of the push (`recursed=True`)
whose local argument still names the original directory `foo` — which is
what the misspelled key `'<LOCAL'` at commands.py:192 guarantees — runs
out of any amount of fuel: the child loop always reaches the directory
child `bar` again and recurses with the local path unchanged and only the
remote path extended. -/
theorem c3_loop : ∀ (fuel : Nat) (st : DState) (rest : List String)
    (stray : Option PPath),
    upload_local_files cFs3 headChooser "y" [] [] fuel st
      ⟨some ⟨true, ["foo"]⟩, none, some ⟨true, "dest" :: rest⟩, none, stray,
        true, true⟩ true = .fuelOut := by
  intro fuel
  induction fuel with
  | zero => intro st rest stray; rfl
  | succ fuel ih =>
    intro st rest stray
    have hrec := ih st (rest ++ ["bar"]) (some ⟨true, ["foo", "bar"]⟩)
    simp only [cFs3] at hrec
    simp [upload_local_files, pyOr, resolvePPath, existsAt, lookupFs, cFs3,
          isDirAt, isFileAt, childrenAt, create_file, FsTree.isDirEntry,
          FsTree.isFileEntry, List.foldl, hrec]

/-- C3: `push --folder --recursive /foo /dest` over `foo/` containing
`a.txt` and `bar/b.txt` never terminates, for every recursion budget and
every drive state: the recursive call writes the new local path under the
misspelled key `'<LOCAL'` (commands.py:192), so every level re-reads the
original `'<LOCAL>'` entry and descends again into `bar` forever — no
mirrored `dest/foo/bar` upload of `b.txt` ever happens. -/
theorem c3_recursive_push_diverges (fuel : Nat) (st : DState) :
    upload_local_files cFs3 headChooser "y" [] [] fuel st cArgs3 false =
      .fuelOut := by
  cases fuel with
  | zero => rfl
  | succ fuel =>
    have hrec := c3_loop fuel st ["bar"] (some ⟨true, ["foo", "bar"]⟩)
    simp only [cFs3] at hrec
    have hg : gateDeclines "y" = false := by decide
    simp [upload_local_files, cArgs3, pyOr, resolvePPath, existsAt, lookupFs,
          cFs3, isDirAt, isFileAt, childrenAt, create_file, FsTree.isDirEntry,
          FsTree.isFileEntry, List.foldl, hg, hrec]

/-! ## C9 -/

/-- C9 counterexample: the live listing succeeds with new data and the
trash listing then fails; the surviving cache has the *new* live set next
to the *old* trashed set, so the previous cache does not remain intact on
a refresh failure. -/
theorem c9_counterexample :
    (update_file_manifest_r cSt8 (.ok [cF7]) (.error ())).2 = some () ∧
    (update_file_manifest_r cSt8 (.ok [cF7]) (.error ())).1 ≠ cSt8 ∧
    (update_file_manifest_r cSt8 (.ok [cF7]) (.error ())).1.ctrash = cSt8.ctrash ∧
    (update_file_manifest_r cSt8 (.ok [cF7]) (.error ())).1.cfiles = [cF7] := by
  decide

/-- C9 (amended): when both listing calls succeed the two cache sets are
replaced together; when the first (live) listing fails the whole previous
cache remains intact and the error is surfaced; but when the second
(trash) listing fails, the live set has already been replaced while the
trashed set keeps its old value — the refresh is not atomic under a
failure of the second call. -/
theorem c9_refresh_characterisation (st : DState) (fs ts : List Node)
    (tr : Except Unit (List Node)) :
    update_file_manifest_r st (.ok fs) (.ok ts) =
      ({ st with cfiles := fs, ctrash := ts }, none) ∧
    update_file_manifest_r st (.error ()) tr = (st, some ()) ∧
    update_file_manifest_r st (.ok fs) (.error ()) =
      ({ st with cfiles := fs }, some ()) :=
  ⟨rfl, rfl, rfl⟩

/-! ## C10 -/

/-- C10: the yes/no prompt returns the first scripted response that is a
contiguous substring of `'ync'` (Python's `decision in 'ync'`),
re-prompting on all others; the empty response is such a substring, so it
is accepted immediately, and it is also a substring of `'nc'`, so every
confirmation gate interprets it as declining. -/
theorem c10_prompt_gate :
    (∀ rs : List String,
      ansi_yes_no_prompt rs = rs.find? fun d => pythonIn d "ync") ∧
    (∀ rs : List String, ansi_yes_no_prompt ("" :: rs) = some "") ∧
    pythonIn "" "ync" = true ∧ gateDeclines "" = true := by
  have hfind : ∀ rs : List String,
      ansi_yes_no_prompt rs = rs.find? fun d => pythonIn d "ync" := by
    intro rs
    induction rs with
    | nil => rfl
    | cons d rest ih =>
      cases h : pythonIn d "ync" <;>
        simp [ansi_yes_no_prompt, List.find?_cons, h, ih]
  have hempty : pythonIn "" "ync" = true := by decide
  exact ⟨hfind, fun rs => by simp [ansi_yes_no_prompt, hempty], hempty, by decide⟩

/-! ## C4 -/

/-- C4: when the source resolves to node `n`, the source's parent key
resolves to `sp`, and the destination's parent key resolves to a
folder-typed `dp`, the move succeeds and rewrites `n` so that its parents
are the old list with `sp`'s id filtered out and `dp`'s id appended —
membership-wise, exactly the old set minus the old parent plus the new
parent, retaining any unrelated parent — and its name becomes the
destination's last component. -/
theorem c4_move_reparents (st : DState) (chooser : List Node → Node)
    (gate : String) (cwd : List String) (source dest : PPath)
    (n : Node) (sp dp : Resolved)
    (hsrc : resolveWith st chooser (resolvePPath cwd source) false =
      some (.node n))
    (hsp : resolveWith st chooser
      (nameKeyPath (resolvePPath cwd source).dropLast) false = some sp)
    (hdp : resolveWith st chooser
      (nameKeyPath (resolvePPath cwd dest).dropLast) false = some dp)
    (hmt : dp.mimeOf = folderMime) :
    move_remote_file st chooser gate cwd source dest =
      .moved
        (uploadNode st
          { n with title := pathTip (resolvePPath cwd dest),
                   parents := n.parents.filter (fun x => x ≠ sp.idIn st)
                              ++ [dp.idIn st] })
        { n with title := pathTip (resolvePPath cwd dest),
                 parents := n.parents.filter (fun x => x ≠ sp.idIn st)
                            ++ [dp.idIn st] } ∧
    ∀ x : String,
      (x ∈ n.parents.filter (fun x => x ≠ sp.idIn st) ++ [dp.idIn st] ↔
        (x ∈ n.parents ∧ x ≠ sp.idIn st) ∨ x = dp.idIn st) := by
  constructor
  · unfold move_remote_file
    rw [hsrc, hsp, hdp]
    show moveCommit st (resolvePPath cwd dest) n sp st dp = _
    unfold moveCommit
    rw [if_pos hmt]
  · intro x
    simp [List.mem_filter]

/-- C4 witness: moving `/p/f` (parents `{p, r}`) to `/q/g` yields parents
`{r, q}` and title `g`. -/
theorem c4_witness :
    move_remote_file cSt4 headChooser "y" [] ⟨true, ["p", "f"]⟩ ⟨true, ["q", "g"]⟩ =
      .moved (uploadNode cSt4 { cN with title := "g", parents := ["R", "Q"] })
             { cN with title := "g", parents := ["R", "Q"] } := by
  have h := (c4_move_reparents cSt4 headChooser "y" [] ⟨true, ["p", "f"]⟩
      ⟨true, ["q", "g"]⟩ cN (.node cP) (.node cQ)
      (by decide) (by decide) (by decide) (by decide)).1
  rw [h]
  decide

/-! ## C5 -/

/-- C5: the move operation resolves the source's parent from only the
terminal component of the parent path (`remote_source.parent.name`,
commands.py:463).  With `docs` living at `/a/docs` — not directly under
root — the bare-name lookup `docs` validates nothing, so moving
`/a/docs/f.txt` raises `RemotePathNotFound` even though the source file
itself resolves at its full path; parent resolution does not use the full
parent path. -/
theorem c5_parent_resolved_by_name_only :
    move_remote_file cSt5 headChooser "y" []
      ⟨true, ["a", "docs", "f.txt"]⟩ ⟨true, ["a", "docs", "g.txt"]⟩ =
      .pathNotFound cSt5 ∧
    resolveWith cSt5 headChooser ["a", "docs", "f.txt"] false =
      some (.node cF5) ∧
    resolveWith cSt5 headChooser
      (nameKeyPath (["a", "docs", "f.txt"] : List String).dropLast) false = none := by
  decide

/-! ## C6 -/

/-- C6: `create_file` checks `Path(remote_path).is_file()` — the remote
path string against the *local* disk (cloud.py:255) — instead of the
local source.  With local `/a.txt` present and remote `/dest/a.txt` not a
local file, the call returns with no upload and the drive state
unchanged, both when nothing resolves at the destination (creation case,
state `cSt0`) and when an existing node does (overwrite case, state
`cSt6`). -/
theorem c6_create_file_silently_skips :
    isFileAt cFs6 ["a.txt"] = true ∧
    create_file cFs6 headChooser cSt0 ["a.txt"] ["dest", "a.txt"] =
      some (cSt0, []) ∧
    resolveWith cSt6 headChooser ["dest", "a.txt"] false =
      some (.node cDup6) ∧
    create_file cFs6 headChooser cSt6 ["a.txt"] ["dest", "a.txt"] =
      some (cSt6, []) := by
  decide

/-! ## C7 -/

/-- C7: `remove_file` never forwards the `--delete` flag
(commands.py:571 calls `delete_remote_file` with its `delete_forever`
default `False`), so `rm -d /f` merely trashes the node — it stays in the
registry with `trashed := true` — although `delete_remote_file` invoked
with `delete_forever=True` would have removed it irrecoverably. -/
theorem c7_permanent_flag_dropped :
    remove_file cSt7 headChooser [] ⟨⟨true, ["f"]⟩, true⟩ =
      .ok ⟨[{ cF7 with trashed := true }], [], [{ cF7 with trashed := true }],
           "root", 0⟩ ∧
    delete_remote_file cSt7 headChooser ["f"] true =
      .ok ⟨[], [], [], "root", 0⟩ :=
  ⟨rfl, rfl⟩

/-! ## C8 -/

/-- C8: restore resolves within the trashed set only — every candidate is
drawn from the trash cache and (with the caches in sync) carries
`trashed = true`, so a live node at the same path is never selected; when
no trashed node resolves the operation fails with `RemotePathNotFound`;
and on success the chosen candidate is un-trashed and the caches are
refreshed from the updated registry. -/
theorem c8_restore_trashed_only (st : DState) (chooser : List Node → Node)
    (path : List String)
    (hsync : st.cfiles = liveView st.registry ∧ st.ctrash = trashView st.registry)
    (hch : ∀ ns : List Node, ns ≠ [] → chooser ns ∈ ns)
    (hname : pathTip path ≠ "") :
    (∀ n ∈ trashCandidates st path, n ∈ st.ctrash ∧ n.trashed = true) ∧
    (trashCandidates st path = [] →
      recover_remote_file st chooser path = .error .pathNotFound) ∧
    (trashCandidates st path ≠ [] →
      chosenOf chooser (trashCandidates st path) ∈ trashCandidates st path ∧
      recover_remote_file st chooser path =
        .ok (update_file_manifest
          (setTrashed st (chosenOf chooser (trashCandidates st path)).id false))) := by
  have hcand : ∀ n ∈ trashCandidates st path, n ∈ st.ctrash ∧ n.trashed = true := by
    intro n hn
    have hmem : n ∈ st.ctrash := (List.mem_filter.mp hn).1
    refine ⟨hmem, ?_⟩
    rw [hsync.2] at hmem
    simpa using (List.mem_filter.mp hmem).2
  have hget : get_remote_file st path true =
      match trashCandidates st path with
      | [] => ResolveResult.notFound
      | [f] => ResolveResult.found f
      | f₁ :: f₂ :: rest => ResolveResult.ambiguous (f₁ :: f₂ :: rest) := by
    unfold get_remote_file
    rw [if_neg hname]
    rfl
  refine ⟨hcand, ?_, ?_⟩
  · intro hms
    rw [hms] at hget
    unfold recover_remote_file resolveWith
    rw [hget]
    rfl
  · intro hms
    rcases hshape : trashCandidates st path with _ | ⟨a, _ | ⟨b, l⟩⟩
    · exact absurd hshape hms
    · constructor
      · simp [chosenOf]
      · unfold recover_remote_file resolveWith
        rw [hget, hshape]
        rfl
    · constructor
      · exact hch _ (by simp)
      · unfold recover_remote_file resolveWith
        rw [hget, hshape]
        rfl

/-- C8 witness: restoring `/f` from a state whose only node is the
trashed `cG8` un-trashes it and refreshes both caches. -/
theorem c8_witness :
    recover_remote_file cSt8 headChooser ["f"] =
      .ok ⟨[{ cG8 with trashed := false }], [{ cG8 with trashed := false }],
           [], "root", 0⟩ := by
  have h := ((c8_restore_trashed_only cSt8 headChooser ["f"]
      ⟨by decide, by decide⟩ headChooser_mem (by decide)).2.2 (by decide)).2
  rw [h]
  rfl

end GDriveCLI

